import Mathlib

/-!
Verification of the Kubernetes Event reconciliation module
(`lib/ansible/modules/clustering/k8s/k8_service_mod.py`, class `KubernetesEvent`).

The module's `execute_module` reads its parameters, looks up the prior Event
via the dynamic resource client (`resource.get`, which raises `NotFoundError`
when the Event does not exist and never returns `None`), derives `count`,
`firstTimestamp`, `lastTimestamp` and the involved object's `uid` /
`resourceVersion`, assembles the desired Event body, and hands it to
`perform_action`.  We embed that computation as a pure Lean function over the
parameters, the prior record (`Option EventRecord`, `none` meaning the lookup
raised `NotFoundError`) and the current timestamp (already RFC3339-formatted,
as `kubernetes.config.dateutil.format_rfc3339(datetime.datetime.now())`
produces it).

Python local-variable semantics matter here: on the path where every
`resource.get` raises `NotFoundError`, the local `lastTimestamp` is never
assigned, so building the `event` dict raises `UnboundLocalError` before any
client write.  The embedding returns `ExecOutcome.crashed` on that path and
`ExecOutcome.applied e` when the body `e` reaches `perform_action`.
-/

/-- The involved-object reference of an Event body.  `apiVersion` and `kind`
are `Option String` because `execute_module` fills them from
`self.params.get('apiVersion')` / `self.params.get('kind')`, top-level keys
absent from the argument spec, hence `None` in Python. -/
structure InvolvedObjectRef where
  apiVersion : Option String
  kind : Option String
  name : String
  «namespace» : String
  uid : String
  resourceVersion : String
deriving Repr, DecidableEq

/-- An Event body, both as stored in the cluster (the prior record read by
`resource.get`) and as assembled by `execute_module` (the dict literal at the
end of the function).  `metadata` is flattened to its two used keys. -/
structure EventRecord where
  apiVersion : String
  kind : String
  count : Nat
  eventTime : Option String
  firstTimestamp : String
  lastTimestamp : String
  involvedObject : InvolvedObjectRef
  message : String
  metadataName : String
  metadataNamespace : String
  reason : String
  reportingComponent : String
  reportingInstance : String
  sourceComponent : Option String
  type : Option String
deriving Repr, DecidableEq

/-- The module parameters `execute_module` reads via `self.params.get`.
The four `involvedObject_*` fields are the caller-supplied sub-fields of the
`involvedObject` option; the module declares that option in `EVENT_ARG_SPEC`
but never reads it (`self.params.get('involvedObject')` is never called), so
these fields are carried here only to show they do not influence the result. -/
structure Params where
  name : String
  «namespace» : String
  message : String
  reason : String
  reportingComponent : String
  type : Option String
  source : Option String
  involvedObject_apiVersion : String
  involvedObject_kind : String
  involvedObject_name : String
  involvedObject_namespace : String
deriving Repr, DecidableEq

/-- First `try` block of `execute_module`: derive the `count` for the new
body.  `priorCount` starts at `1`; if the lookup succeeds it is overwritten
with the prior count, then reset to `1` when the reason changed and
incremented otherwise; `NotFoundError` leaves the initial `1`. -/
def derivedCount (prior : Option EventRecord) (reason : String) : Nat :=
  match prior with
  | none => 1
  | some priorEvent =>
      if priorEvent.reason ≠ reason then 1 else priorEvent.count + 1

/-- Second `try` block: `involvedObject_uid` starts as the sentinel `"1"` and
is overwritten from the stored Event's `involvedObject` when the lookup
succeeds. -/
def derivedInvolvedUid (prior : Option EventRecord) : String :=
  match prior with
  | none => "1"
  | some totalEvent => totalEvent.involvedObject.uid

/-- Second `try` block: same derivation for
`involvedObject_resourceVersion`. -/
def derivedInvolvedResourceVersion (prior : Option EventRecord) : String :=
  match prior with
  | none => "1"
  | some totalEvent => totalEvent.involvedObject.resourceVersion

/-- Third `try` block: the timestamps.  `firstTimestamp` is first set to the
freshly formatted `now` (this unconditional assignment clobbers the
reason-change reset computed in the first block), then overwritten with the
stored Event's `firstTimestamp` when the lookup succeeds, in which case
`lastTimestamp = firstTimestamp` (the prior `firstTimestamp`, not `now`).
When the lookup raises `NotFoundError` the `except` clause is `pass`, so
`lastTimestamp` is never assigned: we return `none` for it.  (The `else`
branch guarded by `totalEvent is not None` is dead code because the dynamic
client raises rather than returning `None`.) -/
def derivedTimestamps (prior : Option EventRecord) (now : String) :
    String × Option String :=
  match prior with
  | none => (now, none)
  | some totalEvent => (totalEvent.firstTimestamp, some totalEvent.firstTimestamp)

/-- Result of one run of `execute_module`: either the assembled body reached
`perform_action` (the only client write), or the run terminated with
`UnboundLocalError` while building the `event` dict, before any write. -/
inductive ExecOutcome where
  | crashed
  | applied (e : EventRecord)
deriving Repr, DecidableEq

/-- The whole of `execute_module` after the client lookups, as a function of
the parameters, the prior record (`none` = every `resource.get` raised
`NotFoundError`) and the RFC3339-formatted current time.  The assembled dict
literal is reproduced field by field, including the hardcoded
`"namespace": "default"` under `metadata` and the top-level parameter reads
that populate `involvedObject`. -/
def execute_module (p : Params) (prior : Option EventRecord) (now : String) :
    ExecOutcome :=
  let priorCount := derivedCount prior p.reason
  let involvedObject_uid := derivedInvolvedUid prior
  let involvedObject_resourceVersion := derivedInvolvedResourceVersion prior
  let ts := derivedTimestamps prior now
  match ts.2 with
  | none => ExecOutcome.crashed
  | some lastTimestamp =>
      ExecOutcome.applied
        { apiVersion := "v1"
          count := priorCount
          eventTime := none
          firstTimestamp := ts.1
          involvedObject :=
            { apiVersion := none      -- self.params.get('apiVersion')
              kind := none            -- self.params.get('kind')
              «namespace» := p.«namespace»
              name := p.name
              resourceVersion := involvedObject_resourceVersion
              uid := involvedObject_uid }
          kind := "Event"
          lastTimestamp := lastTimestamp
          message := p.message
          metadataName := p.name
          metadataNamespace := "default"
          reason := p.reason
          reportingComponent := p.reportingComponent
          reportingInstance := ""
          sourceComponent := p.source
          type := p.type }

/-- A concrete parameter set used for evaluations and witnesses.  The
caller-supplied `involvedObject` sub-fields all differ from the Event's own
name and namespace. -/
def sampleParams : Params :=
  { name := "test-evt"
    «namespace» := "kube-system"
    message := "m1"
    reason := "Scheduled"
    reportingComponent := "metering"
    type := some "Normal"
    source := some "Metering components"
    involvedObject_apiVersion := "apps/v1"
    involvedObject_kind := "Pod"
    involvedObject_name := "mypod"
    involvedObject_namespace := "podns" }

/-- A concrete stored Event used as the prior record in evaluations. -/
def samplePrior : EventRecord :=
  { apiVersion := "v1"
    kind := "Event"
    count := 4
    eventTime := none
    firstTimestamp := "T0"
    lastTimestamp := "T0b"
    involvedObject :=
      { apiVersion := some "v1"
        kind := some "Pod"
        name := "mypod"
        «namespace» := "podns"
        uid := "uid-42"
        resourceVersion := "rv-17" }
    message := "old message"
    metadataName := "test-evt"
    metadataNamespace := "kube-system"
    reason := "Scheduled"
    reportingComponent := "metering"
    reportingInstance := ""
    sourceComponent := some "Metering components"
    type := some "Normal" }

/-- Modelled from the spec: outcome of one `client.patch` call inside the
Merge Strategy Negotiator (spec section 4.2).  The negotiator itself is
`KubernetesRawModule.perform_action` in `ansible/module_utils/k8s/raw.py`,
which is imported by the module but is not among the source files here. -/
inductive PatchOutcome where
  | ok (e : EventRecord)
  | mergeRejected
  | otherError
deriving Repr, DecidableEq

/-- Modelled from the spec: the result the Merge Strategy Negotiator reports
to the Reconciliation Executor. -/
inductive NegotiationResult where
  | applied (e : EventRecord)
  | mergeStrategyExhausted
  | failed
deriving Repr, DecidableEq

/-- Modelled from the spec: the Merge Strategy Negotiator (spec section 4.2),
whose implementation (`KubernetesRawModule.perform_action`) is not among the
source files here.  It iterates the caller-supplied strategies in order,
calls `client.patch` once per candidate, falls through to the next strategy
on `MergeRejected`, stops on any other failure, and fails with
`MergeStrategyExhausted` when every strategy was rejected.  Alongside the
result it returns the ordered trace of strategies actually attempted, one
entry per patch call, so invocation counts are visible. -/
def negotiate (patch : String → PatchOutcome) :
    List String → NegotiationResult × List String
  | [] => (NegotiationResult.mergeStrategyExhausted, [])
  | s :: rest =>
      match patch s with
      | PatchOutcome.ok e => (NegotiationResult.applied e, [s])
      | PatchOutcome.mergeRejected =>
          let r := negotiate patch rest
          (r.1, s :: r.2)
      | PatchOutcome.otherError => (NegotiationResult.failed, [s])

/-- A concrete resource client for witnesses: it rejects every strategy
except `merge`, which succeeds. -/
def samplePatch (s : String) : PatchOutcome :=
  if s = "merge" then PatchOutcome.ok samplePrior else PatchOutcome.mergeRejected

/-- Helper: when every supplied strategy is rejected, the negotiator reports
`mergeStrategyExhausted` and its trace is exactly the supplied list (each
strategy attempted once, no successful write). -/
lemma negotiate_all_rejected (q : String → PatchOutcome) :
    ∀ strategies : List String,
      (∀ s ∈ strategies, q s = PatchOutcome.mergeRejected) →
      negotiate q strategies = (NegotiationResult.mergeStrategyExhausted, strategies)
  | [], _ => rfl
  | s :: rest, hall => by
      have hs := hall s (List.mem_cons_self s rest)
      have hrest := negotiate_all_rejected q rest
        (fun t ht => hall t (List.mem_cons_of_mem s ht))
      simp [negotiate, hs, hrest]

/-- C1: the claim says a reconciliation with no prior record produces an
EventRecord with `count = 1` and `firstTimestamp = lastTimestamp = now`.
Evaluating the code at such an input shows it instead terminates with
`UnboundLocalError` (the local `lastTimestamp` is only assigned on the
lookup-succeeded path), so no EventRecord is produced and no create call is
issued. -/
theorem C1_no_prior_produces_no_record :
    execute_module sampleParams none "T1" = ExecOutcome.crashed := rfl

/-- C2: when a prior record exists and its reason equals the desired reason,
the assembled EventRecord has `count = prior.count + 1` and
`firstTimestamp = prior.firstTimestamp`. -/
theorem C2_same_reason_increments_count (p : Params) (pe : EventRecord)
    (now : String) (h : pe.reason = p.reason) :
    ∃ e, execute_module p (some pe) now = ExecOutcome.applied e ∧
      e.count = pe.count + 1 ∧ e.firstTimestamp = pe.firstTimestamp := by
  refine ⟨_, rfl, ?_, rfl⟩
  simp [derivedCount, h]

/-- C2 witness: the sample prior has the same reason as the sample
parameters, and the theorem applies to them. -/
theorem C2_same_reason_increments_count_witness :
    samplePrior.reason = sampleParams.reason ∧
    ∃ e, execute_module sampleParams (some samplePrior) "T1" =
        ExecOutcome.applied e ∧
      e.count = samplePrior.count + 1 ∧
      e.firstTimestamp = samplePrior.firstTimestamp :=
  ⟨rfl, C2_same_reason_increments_count sampleParams samplePrior "T1" rfl⟩

/-- C3: the claim says a reason change resets `firstTimestamp` to `now`.
Evaluating the code with a prior whose reason is `"Scheduled"` and
`firstTimestamp = "T0"`, desired reason `"Failed"`, current time `"T1"`:
`count = 1` does hold, but the assembled record keeps the prior
`firstTimestamp` (`"T0"`), because the third lookup block unconditionally
overwrites the reset computed in the first block. -/
theorem C3_reason_change_keeps_prior_firstTimestamp :
    ∃ e, execute_module { sampleParams with reason := "Failed" }
        (some samplePrior) "T1" = ExecOutcome.applied e ∧
      e.count = 1 ∧ e.firstTimestamp = "T0" ∧ e.firstTimestamp ≠ "T1" :=
  ⟨_, rfl, by decide, rfl, by decide⟩

/-- C4: the claim says `lastTimestamp = now` on every successful apply.
Evaluating the code with a prior whose `firstTimestamp = "T0"` and current
time `"T1"`: the assembled record has `lastTimestamp = "T0"` (the prior
`firstTimestamp` is copied into `lastTimestamp`), not `"T1"`. -/
theorem C4_lastTimestamp_is_prior_firstTimestamp :
    ∃ e, execute_module sampleParams (some samplePrior) "T1" =
        ExecOutcome.applied e ∧
      e.lastTimestamp = samplePrior.firstTimestamp ∧ e.lastTimestamp ≠ "T1" :=
  ⟨_, rfl, rfl, by decide⟩

/-- C5: the claim says `metadata.namespace` equals the caller-supplied
namespace.  The code hardcodes `"namespace": "default"` in the assembled
`metadata` for every input; at the sample input whose namespace is
`"kube-system"` the assembled record's namespace differs from it. -/
theorem C5_metadata_namespace_hardcoded :
    (∀ (p : Params) (pe : EventRecord) (now : String),
      ∃ e, execute_module p (some pe) now = ExecOutcome.applied e ∧
        e.metadataNamespace = "default") ∧
    (∃ e, execute_module sampleParams (some samplePrior) "T1" =
        ExecOutcome.applied e ∧
      e.metadataNamespace ≠ sampleParams.«namespace») :=
  ⟨fun _ _ _ => ⟨_, rfl, rfl⟩, ⟨_, rfl, by decide⟩⟩

/-- C6: the claim says the assembled `involvedObject` fields come from the
caller's `involvedObject` sub-fields.  The code instead fills them from
top-level parameters: `name` and `namespace` from the Event's own name and
namespace, and `apiVersion` and `kind` from the undeclared top-level keys
`apiVersion` / `kind`, hence `None`; the caller's `involvedObject`
sub-fields are never read.  At the sample input every assembled field
differs from the caller's corresponding sub-field. -/
theorem C6_involvedObject_from_top_level_params :
    (∀ (p : Params) (pe : EventRecord) (now : String),
      ∃ e, execute_module p (some pe) now = ExecOutcome.applied e ∧
        e.involvedObject.name = p.name ∧
        e.involvedObject.«namespace» = p.«namespace» ∧
        e.involvedObject.apiVersion = none ∧
        e.involvedObject.kind = none) ∧
    (∃ e, execute_module sampleParams (some samplePrior) "T1" =
        ExecOutcome.applied e ∧
      e.involvedObject.name ≠ sampleParams.involvedObject_name ∧
      e.involvedObject.«namespace» ≠ sampleParams.involvedObject_namespace ∧
      e.involvedObject.apiVersion ≠ some sampleParams.involvedObject_apiVersion ∧
      e.involvedObject.kind ≠ some sampleParams.involvedObject_kind) :=
  ⟨fun _ _ _ => ⟨_, rfl, rfl, rfl, rfl, rfl⟩,
   ⟨_, rfl, by decide, by decide, by decide, by decide⟩⟩

/-- C7 counterexample: the claim says that when no prior record exists the
assembled EventRecord's `involvedObject.uid` and `resourceVersion` default
to `"1"`; but at a concrete no-prior input no EventRecord is assembled at
all (the run crashes on the unassigned `lastTimestamp` before assembly). -/
theorem C7_no_prior_no_assembled_record :
    ¬ ∃ e, execute_module sampleParams none "T1" = ExecOutcome.applied e := by
  rintro ⟨e, he⟩
  rw [show execute_module sampleParams none "T1" = ExecOutcome.crashed from rfl]
    at he
  exact ExecOutcome.noConfusion he

/-- C7 (amended): when a prior record exists, the assembled EventRecord's
`involvedObject.uid` and `involvedObject.resourceVersion` are copied from
the prior stored Event's `involvedObject`; when no prior record exists the
derivation defaults both to the sentinel `"1"`, but the reconciliation
crashes before assembling any record. -/
theorem C7_uid_resourceVersion_copied_from_prior (p : Params)
    (pe : EventRecord) (now : String) :
    (∃ e, execute_module p (some pe) now = ExecOutcome.applied e ∧
      e.involvedObject.uid = pe.involvedObject.uid ∧
      e.involvedObject.resourceVersion = pe.involvedObject.resourceVersion) ∧
    derivedInvolvedUid none = "1" ∧
    derivedInvolvedResourceVersion none = "1" ∧
    execute_module p none now = ExecOutcome.crashed :=
  ⟨⟨_, rfl, rfl, rfl⟩, rfl, rfl, rfl⟩

/-- C8: with strategies `[strategic-merge, merge]` and a client that rejects
`strategic-merge` but accepts `merge`, the negotiator applies via `merge`,
its trace shows each strategy invoked exactly once (no retry of
`strategic-merge`); and whenever every supplied strategy is rejected, it
fails with `MergeStrategyExhausted`, the trace showing one rejected attempt
per strategy and no successful write. -/
theorem C8_merge_fallback_and_exhaustion (patch : String → PatchOutcome)
    (e : EventRecord)
    (h1 : patch "strategic-merge" = PatchOutcome.mergeRejected)
    (h2 : patch "merge" = PatchOutcome.ok e) :
    negotiate patch ["strategic-merge", "merge"] =
      (NegotiationResult.applied e, ["strategic-merge", "merge"]) ∧
    ∀ (q : String → PatchOutcome) (strategies : List String),
      (∀ s ∈ strategies, q s = PatchOutcome.mergeRejected) →
      negotiate q strategies =
        (NegotiationResult.mergeStrategyExhausted, strategies) := by
  constructor
  · simp [negotiate, h1, h2]
  · exact fun q strategies hall => negotiate_all_rejected q strategies hall

/-- C8 witness: the sample client rejects `strategic-merge` and accepts
`merge`, and the theorem applies to it. -/
theorem C8_merge_fallback_and_exhaustion_witness :
    samplePatch "strategic-merge" = PatchOutcome.mergeRejected ∧
    samplePatch "merge" = PatchOutcome.ok samplePrior ∧
    negotiate samplePatch ["strategic-merge", "merge"] =
      (NegotiationResult.applied samplePrior, ["strategic-merge", "merge"]) :=
  ⟨by decide, by decide,
   (C8_merge_fallback_and_exhaustion samplePatch samplePrior (by decide)
     (by decide)).1⟩

/-- C9: on every input whose lookup finds no prior Event (every
`resource.get` raises `NotFoundError`), `execute_module` terminates with
`UnboundLocalError` while building the `event` dict — `lastTimestamp` is
assigned only on lookup-succeeded paths — so no create call is issued
(`perform_action` is never reached). -/
theorem C9_no_prior_unbound_local (p : Params) (now : String) :
    execute_module p none now = ExecOutcome.crashed := rfl

/-- C10: every assembled EventRecord has the constant fields
`apiVersion = "v1"`, `kind = "Event"`, `eventTime = None` and
`reportingInstance = ""`, regardless of the parameters and the prior
record. -/
theorem C10_constant_fields (p : Params) (prior : Option EventRecord)
    (now : String) (e : EventRecord)
    (h : execute_module p prior now = ExecOutcome.applied e) :
    e.apiVersion = "v1" ∧ e.kind = "Event" ∧ e.eventTime = none ∧
      e.reportingInstance = "" := by
  cases prior with
  | none => exact ExecOutcome.noConfusion h
  | some pe =>
      injection h with h2
      subst h2
      exact ⟨rfl, rfl, rfl, rfl⟩

/-- C10 witness: a concrete run assembles a record, and the theorem applies
to it. -/
theorem C10_constant_fields_witness :
    ∃ e, execute_module sampleParams (some samplePrior) "T1" =
        ExecOutcome.applied e ∧
      (e.apiVersion = "v1" ∧ e.kind = "Event" ∧ e.eventTime = none ∧
        e.reportingInstance = "") :=
  ⟨_, rfl,
   C10_constant_fields sampleParams (some samplePrior) "T1" _ rfl⟩
